import Mathlib

/-!
Shallow embedding of the Forecast-Order-Comparison-Tool repository.

`src/azure_sql.py` defines a `DatabaseConnection` class whose operations talk
to a database through a pyodbc driver.  Python strings are modelled as
`List Char` (`Str`), so that splitting, stripping and concatenation compute
inside the kernel.  The driver is an oracle (`Driver`): `exec` says, for each
SQL text and optional bound parameter list, whether the driver raises and
which resultsets the cursor then holds; `readSql` models `pandas.read_sql`.
Each Python method becomes a pure function from the connection state
(`connected : Bool`), the oracle and the arguments to a `PyResult` outcome
paired with the ordered trace of observable effects (cursor acquisition and
release, executes, commit, log calls).

`src/forecast_vs_order_app.py` contributes the row-classification function
`highlight_qty` and the fill-absent-with-zero step, modelled over `Int`.
-/

/-- Python strings, modelled as their character sequences. -/
abbrev Str := List Char

/-- Coerce a Lean string literal to the `Str` model. -/
def lit (s : String) : Str := s.toList

/-- Does `l` start with the pattern `p`? -/
def startsWithL : Str → Str → Bool
  | _, [] => true
  | [], _ :: _ => false
  | c :: cs, d :: ds => c = d && startsWithL cs ds

/-- Worker for `splitOnL`; the fuel is the length of the remaining input, and
each step consumes at least one character. -/
def splitOnGo (pat : Str) : Nat → Str → Str → List Str
  | _, [], acc => [acc.reverse]
  | 0, l, acc => [acc.reverse ++ l]
  | fuel + 1, c :: rest, acc =>
    if startsWithL (c :: rest) pat then
      acc.reverse :: splitOnGo pat fuel (List.drop (pat.length - 1) rest) []
    else
      splitOnGo pat fuel rest (c :: acc)

/-- Python `s.split(sep)` for a non-empty separator: the segments between
non-overlapping left-to-right occurrences of `pat`; splitting the empty
string yields `[""]`. -/
def splitOnL (pat : Str) (s : Str) : List Str :=
  splitOnGo pat s.length s []

/-- The characters Python `str.strip()` removes at both ends
(ASCII whitespace). -/
def isSpaceChar (c : Char) : Bool :=
  c = ' ' || c = '\t' || c = '\n' || c = '\r' || c = '\x0b' || c = '\x0c'

/-- Python `s.strip()`. -/
def stripL (s : Str) : Str :=
  ((s.dropWhile isSpaceChar).reverse.dropWhile isSpaceChar).reverse

/-- Python `sep.join(parts)`. -/
def intercalateL (sep : Str) : List Str → Str
  | [] => []
  | [x] => x
  | x :: y :: rest => x ++ sep ++ intercalateL sep (y :: rest)

/-- Concatenation of the images, `flat_map` spelled out so it reduces. -/
def flatMapL {α β : Type} (f : α → List β) : List α → List β
  | [] => []
  | x :: xs => f x ++ flatMapL f xs

/-- A database cell value, as bound to a parameter or returned in a row. -/
inductive Value
  | intV (n : Int)
  | strV (s : Str)
  | nullV
deriving DecidableEq

/-- A row of a resultset (`cursor.fetchall` element). -/
abbrev Row := List Value

/-- Model of a `pandas.DataFrame` as produced by
`pd.DataFrame.from_records(rows, columns=columns)`. -/
structure DataFrame where
  columns : List Str
  rows : List Row
deriving DecidableEq

/-- One resultset of a cursor: `description` is `none` when the statement
produced no column descriptor (e.g. an UPDATE), otherwise the column names
(`desc[0]` of each descriptor tuple); `rows` is what `fetchall` returns. -/
structure ResultSet where
  description : Option (List Str)
  rows : List Row
deriving DecidableEq

/-- Observable effects an operation performs on the driver/connection. -/
inductive Effect
  | cursorOpen
  | execute (sql : Str) (params : Option (List Value))
  | cursorClose
  | commit
  | logError (msg : Str)
  | logWarning (msg : Str)
deriving DecidableEq

/-- Outcome of a Python method call at the layer boundary:
a returned value, a raised `DatabaseConnectionError`, an unwrapped
lower-layer (driver) exception, an `IndexError`, or a `TypeError`. -/
inductive PyResult (α : Type)
  | ok (a : α)
  | dbConnError (msg : Str)
  | driverError (msg : Str)
  | indexError
  | typeError
deriving DecidableEq

/-- The pyodbc driver oracle.  `exec sql params` is the driver's reaction to
`cursor.execute`: an error message (the raised lower-layer exception) or the
list of resultsets the cursor subsequently walks with `nextset`.
`readSql` models `pandas.read_sql` on the connection. -/
structure Driver where
  exec : Str → Option (List Value) → Except Str (List ResultSet)
  readSql : Str → Except Str DataFrame

/-- Is an `Except` a success? -/
def exceptOk {ε α : Type} : Except ε α → Bool
  | .ok _ => true
  | .error _ => false

/-- Python truthiness of `params` in `if params:`: `None` and an empty
sequence are falsy, so only a non-empty sequence is passed to
`cursor.execute(batch, params)`; otherwise `cursor.execute(batch)` runs. -/
def pyTruthyParams : Option (List Value) → Option (List Value)
  | some l => if l.isEmpty then none else some l
  | none => none

/-- Python `batches = [batch.strip() for batch in script.split("\nGO\n") if batch.strip()]`
from `run_script_and_get_last_result` (src/azure_sql.py line 124). -/
def splitBatches (script : Str) : List Str :=
  ((splitOnL (lit "\nGO\n") script).map stripL).filter (fun b => b ≠ [])

/-- Executing a list of batches in order, each via `cursor.execute(batch)`
with no parameters, draining resultsets (`while cursor.nextset(): pass`).
Returns the effect trace and the first driver error, if any, at which the
loop aborts (nothing catches it in the Python). -/
def execAll (drv : Driver) : List Str → List Effect × Option Str
  | [] => ([], none)
  | b :: rest =>
    match drv.exec b none with
    | .error e => ([Effect.execute b none], some e)
    | .ok _ =>
      let r := execAll drv rest
      (Effect.execute b none :: r.1, r.2)

/-- Model of `while cursor.description is None and cursor.nextset(): pass` followed by
reading `cursor.description` / `cursor.fetchall()`: the first resultset that
has a column descriptor, or `none` when every resultset lacks one and the
subsequent iteration over a `None` description raises `TypeError`. -/
def firstWithDesc : List ResultSet → Option (List Str × List Row)
  | [] => none
  | r :: rs =>
    match r.description with
    | some cols => some (cols, r.rows)
    | none => firstWithDesc rs

/-- Body of the `try:` block of `run_script_and_get_last_result`
(src/azure_sql.py lines 127-145): run every batch but the last with no
parameters, then the last with the supplied parameters if truthy, skip
descriptorless resultsets, build the DataFrame.  `batches[-1]` on an empty
list raises `IndexError`. -/
def scriptBody (drv : Driver) (batches : List Str)
    (params : Option (List Value)) : PyResult DataFrame × List Effect :=
  let r := execAll drv batches.dropLast
  match r.2 with
  | some e => (.driverError e, r.1)
  | none =>
    match batches.getLast? with
    | none => (.indexError, r.1)
    | some last =>
      let pArg := pyTruthyParams params
      match drv.exec last pArg with
      | .error e => (.driverError e, r.1 ++ [Effect.execute last pArg])
      | .ok sets =>
        match firstWithDesc sets with
        | some cr => (.ok ⟨cr.1, cr.2⟩, r.1 ++ [Effect.execute last pArg])
        | none => (.typeError, r.1 ++ [Effect.execute last pArg])

/-- Model of `run_script_and_get_last_result` (src/azure_sql.py lines 115-148).
The cursor is obtained after the connection check and closed in `finally`,
so every outcome of the body still releases it. -/
def run_script_and_get_last_result (connected : Bool) (drv : Driver)
    (script : Str) (params : Option (List Value)) :
    PyResult DataFrame × List Effect :=
  if connected then
    let body := scriptBody drv (splitBatches script) params
    (body.1, Effect.cursorOpen :: body.2 ++ [Effect.cursorClose])
  else
    (.dbConnError (lit "Database connection not established"), [])

/-- The `parameters` argument of `call_stored_procedure_with_select`,
as the Python `isinstance` checks see it: a dict, a list, a tuple, or
anything else (`None` included). -/
inductive ProcParams
  | dict (kvs : List (Str × Value))
  | listP (vs : List Value)
  | tupleP (vs : List Value)
  | noneP
deriving DecidableEq

/-- Placeholder string and bound values (src/azure_sql.py lines 77-85):
`isinstance(parameters, dict)` renders `@key = ?` pairs;
`isinstance(parameters, list)` renders positional `?`; anything else —
a tuple included — binds nothing. -/
def buildPlaceholders : ProcParams → Str × List Value
  | .dict kvs =>
    (intercalateL (lit ", ") (kvs.map (fun kv => lit "@" ++ kv.1 ++ lit " = ?")),
     kvs.map (fun kv => kv.2))
  | .listP vs =>
    (intercalateL (lit ", ") (vs.map (fun _ => lit "?")), vs)
  | .tupleP _ => ([], [])
  | .noneP => ([], [])

/-- The combined batch text of src/azure_sql.py lines 88-91. -/
def spSql (procedure_name : Str) (parameters : ProcParams)
    (temp_table_name : Str) : Str :=
  lit "\n            EXEC " ++ procedure_name ++ lit " " ++
    (buildPlaceholders parameters).1 ++
    lit ";\n            SELECT * FROM " ++ temp_table_name ++
    lit ";\n            "

/-- The `param_values` bound by `cursor.execute(sql_query, param_values)`. -/
def spVals (parameters : ProcParams) : List Value :=
  (buildPlaceholders parameters).2

/-- Model of `call_stored_procedure_with_select` (src/azure_sql.py lines 69-113).
The connection check raises before the `try:`; inside it, every failure is
caught, logged and turned into `return None` (`.ok none` here); the
`while True` loop skips resultsets whose `description` iteration raises,
returning the first convertible one, or an empty DataFrame after a warning.
The cursor is never closed. -/
def call_stored_procedure_with_select (connected : Bool) (drv : Driver)
    (procedure_name : Str) (parameters : ProcParams)
    (temp_table_name : Str) : PyResult (Option DataFrame) × List Effect :=
  if connected then
    let sql := spSql procedure_name parameters temp_table_name
    let vals := spVals parameters
    match drv.exec sql (some vals) with
    | .error e =>
      (.ok none,
       [Effect.cursorOpen, Effect.execute sql (some vals),
        Effect.logError (lit "Error calling stored procedure with select: " ++ e)])
    | .ok sets =>
      match firstWithDesc sets with
      | some cr =>
        (.ok (some ⟨cr.1, cr.2⟩),
         [Effect.cursorOpen, Effect.execute sql (some vals)])
      | none =>
        (.ok (some ⟨[], []⟩),
         [Effect.cursorOpen, Effect.execute sql (some vals),
          Effect.logWarning (lit "No results returned from combined SP and select.")])
  else
    (.dbConnError (lit "Database connection not established"), [])

/-- Model of `read_sql` (src/azure_sql.py lines 151-158): delegates to
`pd.read_sql(query, connection)` — no cursor of its own at this layer —
and wraps any error in `DatabaseConnectionError`. -/
def read_sql (connected : Bool) (drv : Driver) (query : Str) :
    PyResult DataFrame × List Effect :=
  if connected then
    match drv.readSql query with
    | .error e => (.dbConnError (lit "Error executing query: " ++ e), [])
    | .ok df => (.ok df, [])
  else
    (.dbConnError (lit "Database connection not established"), [])

/-- Python `fetchall` on the cursor right after an execute: rows of the first
resultset. -/
def headRows (sets : List ResultSet) : List Row :=
  match sets with
  | [] => []
  | r :: _ => r.rows

/-- Model of `execute_query` (src/azure_sql.py lines 160-176): `params or []`
replaces a falsy argument with `[]`; errors are wrapped in
`DatabaseConnectionError`; `finally` closes the cursor on both paths. -/
def execute_query (connected : Bool) (drv : Driver) (query : Str)
    (params : Option (List Value)) : PyResult (List Row) × List Effect :=
  if connected then
    let pArg : List Value := params.getD []
    match drv.exec query (some pArg) with
    | .error e =>
      (.dbConnError (lit "Error executing query: " ++ e),
       [Effect.cursorOpen, Effect.execute query (some pArg),
        Effect.cursorClose])
    | .ok sets =>
      (.ok (headRows sets),
       [Effect.cursorOpen, Effect.execute query (some pArg),
        Effect.cursorClose])
  else
    (.dbConnError (lit "Database connection not established"), [])

/-- Python `script.strip().split(';')` filtered by `if stmt.strip():` — note the
unstripped statement is what gets executed (src/azure_sql.py lines 182-184). -/
def multiStmts (script : Str) : List Str :=
  (splitOnL (lit ";") (stripL script)).filter (fun s => stripL s ≠ [])

/-- Model of `run_multistatement_script` (src/azure_sql.py lines 178-185): no
`try` at all, so a driver error escapes unwrapped, skipping both the
commit and any cursor release; on success the connection commits once,
after the last statement.  The cursor is never closed. -/
def run_multistatement_script (connected : Bool) (drv : Driver)
    (script : Str) : PyResult Unit × List Effect :=
  if connected then
    let r := execAll drv (multiStmts script)
    match r.2 with
    | some e => (.driverError e, Effect.cursorOpen :: r.1)
    | none => (.ok (), Effect.cursorOpen :: r.1 ++ [Effect.commit])
  else
    (.dbConnError (lit "No active DB connection."), [])

/-- Standard UTF-8 encoding of the code point `n`, as `bytes(token, "UTF-8")
produces it. -/
def utf8EncodeChar (n : Nat) : List Nat :=
  if n < 128 then [n]
  else if n < 2048 then [192 + n / 64, 128 + n % 64]
  else if n < 65536 then [224 + n / 4096, 128 + n / 64 % 64, 128 + n % 64]
  else [240 + n / 262144, 128 + n / 4096 % 64, 128 + n / 64 % 64, 128 + n % 64]

/-- The byte sequence `bytes(token, "UTF-8")` iterated at
src/azure_sql.py line 54. -/
def utf8Bytes (s : Str) : List Nat :=
  flatMapL (fun c => utf8EncodeChar c.toNat) s

/-- The `exptoken` accumulation loop of src/azure_sql.py lines 53-56:
`bytes({i})` is the single byte `i` and `bytes(1)` is a single zero byte,
so each iteration appends the byte and then a zero. -/
def exptoken (bs : List Nat) : List Nat :=
  bs.foldl (fun acc i => acc ++ [i] ++ [0]) []

/-- Python `struct.pack("=i", n)`: a 4-byte machine integer in native byte order,
little-endian on the x86-64/ARM64 hosts this runs on. -/
def packI32LE (n : Nat) : List Nat :=
  [n % 256, n / 256 % 256, n / 256 ^ 2 % 256, n / 256 ^ 3 % 256]

/-- Python `tokenstruct = struct.pack("=i", len(exptoken)) + exptoken`
(src/azure_sql.py line 57). -/
def tokenstruct (bs : List Nat) : List Nat :=
  packI32LE (exptoken bs).length ++ exptoken bs

/-- The driver pre-connection attributes `_setup_connection` passes
(src/azure_sql.py lines 47-58): on a non-LOCAL run it connects with
`Authentication=ActiveDirectoryMsi` and no `attrs_before` (`none` here);
on a LOCAL run it passes `{SQL_COPT_SS_ACCESS_TOKEN: tokenstruct}` with
`SQL_COPT_SS_ACCESS_TOKEN = 1256`. -/
def setup_connection_attrs (localRun : Str) (token : Str) :
    Option (Nat × List Nat) :=
  if localRun = lit "LOCAL" then some (1256, tokenstruct (utf8Bytes token))
  else none

/-- The three cell colors `highlight_qty` can paint a row. -/
inductive Color
  | red
  | green
  | yellow
deriving DecidableEq

/-- Model of `highlight_qty` (src/forecast_vs_order_app.py lines 150-156), applied to
the two quantity cells of a joined row after the fill step. -/
def highlight_qty (forecastedOrderQty orderedQty : Int) : Color :=
  if forecastedOrderQty = 0 ∨ orderedQty = 0 then Color.red
  else if forecastedOrderQty = orderedQty then Color.green
  else Color.yellow

/-- Python `fillna(0)` on one quantity cell of the outer join
(src/forecast_vs_order_app.py lines 144-145): an absent value becomes 0. -/
def fillna0 : Option Int → Int
  | none => 0
  | some v => v

/-- Occurrence count of an effect in a trace. -/
def countEffect (e : Effect) : List Effect → Nat
  | [] => 0
  | x :: xs => (if x = e then 1 else 0) + countEffect e xs

/-- The script of the C1 example: three batches joined by the GO
delimiter. -/
def exScript : Str := lit "SELECT 1\nGO\nSELECT 2 WHERE 1=0\nGO\nSELECT 3 AS x"

/-- Concrete well-behaved driver: `SELECT 3 AS x` yields one resultset with
column `x` and the single row `[3]`; any other statement yields one
descriptored, empty resultset; `read_sql` yields an empty frame. -/
def exDriver : Driver :=
  ⟨fun sql _ =>
      if sql = lit "SELECT 3 AS x" then
        .ok [⟨some [lit "x"], [[Value.intV 3]]⟩]
      else
        .ok [⟨some [lit "c"], []⟩],
   fun _ => .ok ⟨[], []⟩⟩

/-- Concrete always-failing driver: every statement raises `boom`. -/
def failDriver : Driver :=
  ⟨fun _ _ => .error (lit "boom"), fun _ => .error (lit "boom")⟩

lemma execAll_ok (drv : Driver) (l : List Str)
    (h : ∀ b ∈ l, exceptOk (drv.exec b none) = true) :
    execAll drv l = (l.map (fun b => Effect.execute b none), none) := by
  induction l with
  | nil => rfl
  | cons b rest ih =>
    have hb := h b (List.mem_cons_self b rest)
    cases hx : drv.exec b none with
    | error e => rw [hx] at hb; simp [exceptOk] at hb
    | ok sets =>
      simp [execAll, hx, ih (fun x hmem => h x (List.mem_cons_of_mem b hmem))]

lemma execAll_fst_of_none (drv : Driver) (l : List Str)
    (h : (execAll drv l).2 = none) :
    (execAll drv l).1 = l.map (fun b => Effect.execute b none) := by
  induction l with
  | nil => rfl
  | cons b rest ih =>
    cases hx : drv.exec b none with
    | error e => simp [execAll, hx] at h
    | ok sets =>
      simp [execAll, hx] at h ⊢
      exact ih h

lemma execAll_only_executes (drv : Driver) (l : List Str) :
    ∀ x ∈ (execAll drv l).1, ∃ b, x = Effect.execute b none := by
  induction l with
  | nil => intro x hx; simp [execAll] at hx
  | cons b rest ih =>
    intro x hx
    cases he : drv.exec b none with
    | error e =>
      simp [execAll, he] at hx
      exact ⟨b, hx⟩
    | ok sets =>
      simp [execAll, he] at hx
      rcases hx with h1 | h2
      · exact ⟨b, h1⟩
      · exact ih x h2

lemma countEffect_append (e : Effect) (l1 l2 : List Effect) :
    countEffect e (l1 ++ l2) = countEffect e l1 + countEffect e l2 := by
  induction l1 with
  | nil => simp [countEffect]
  | cons x xs ih => simp [countEffect, ih, Nat.add_assoc]

lemma countEffect_eq_zero (e : Effect) (l : List Effect)
    (h : ∀ x ∈ l, x ≠ e) : countEffect e l = 0 := by
  induction l with
  | nil => rfl
  | cons x xs ih =>
    simp [countEffect, if_neg (h x (List.mem_cons_self x xs)),
      ih (fun y hy => h y (List.mem_cons_of_mem x hy))]

lemma scriptBody_only_executes (drv : Driver) (batches : List Str)
    (params : Option (List Value)) :
    ∀ x ∈ (scriptBody drv batches params).2, ∃ s q, x = Effect.execute s q := by
  intro x hx
  cases h2 : (execAll drv batches.dropLast).2 with
  | some e =>
    simp [scriptBody, h2] at hx
    obtain ⟨b, rfl⟩ := execAll_only_executes drv batches.dropLast x hx
    exact ⟨b, none, rfl⟩
  | none =>
    cases hl : batches.getLast? with
    | none =>
      simp [scriptBody, h2, hl] at hx
      obtain ⟨b, rfl⟩ := execAll_only_executes drv batches.dropLast x hx
      exact ⟨b, none, rfl⟩
    | some last =>
      cases he : drv.exec last (pyTruthyParams params) with
      | error e =>
        simp [scriptBody, h2, hl, he] at hx
        rcases hx with h1 | h1
        · obtain ⟨b, rfl⟩ := execAll_only_executes drv batches.dropLast x h1
          exact ⟨b, none, rfl⟩
        · exact ⟨last, pyTruthyParams params, h1⟩
      | ok sets =>
        cases hf : firstWithDesc sets with
        | some cr =>
          simp [scriptBody, h2, hl, he, hf] at hx
          rcases hx with h1 | h1
          · obtain ⟨b, rfl⟩ := execAll_only_executes drv batches.dropLast x h1
            exact ⟨b, none, rfl⟩
          · exact ⟨last, pyTruthyParams params, h1⟩
        | none =>
          simp [scriptBody, h2, hl, he, hf] at hx
          rcases hx with h1 | h1
          · obtain ⟨b, rfl⟩ := execAll_only_executes drv batches.dropLast x h1
            exact ⟨b, none, rfl⟩
          · exact ⟨last, pyTruthyParams params, h1⟩

lemma call_sp_executes (drv : Driver) (proc : Str) (ps : ProcParams)
    (tmp : Str) :
    Effect.execute (spSql proc ps tmp) (some (spVals ps)) ∈
      (call_stored_procedure_with_select true drv proc ps tmp).2 := by
  cases he : drv.exec (spSql proc ps tmp) (some (spVals ps)) with
  | error e => simp [call_stored_procedure_with_select, he]
  | ok sets =>
    cases hf : firstWithDesc sets <;>
      simp [call_stored_procedure_with_select, he, hf]

lemma foldl_exptoken (l : List Nat) :
    ∀ acc, l.foldl (fun a i => a ++ [i] ++ [0]) acc =
      acc ++ flatMapL (fun b => [b, 0]) l := by
  induction l with
  | nil => intro acc; simp [flatMapL]
  | cons b rest ih =>
    intro acc
    rw [List.foldl_cons, ih]
    simp [flatMapL, List.append_assoc]

lemma exptoken_eq_flat (l : List Nat) :
    exptoken l = flatMapL (fun b => [b, 0]) l := by
  simpa [exptoken] using foldl_exptoken l []

lemma flat_pair_length (l : List Nat) :
    (flatMapL (fun b => [b, 0]) l).length = 2 * l.length := by
  induction l with
  | nil => rfl
  | cons b rest ih =>
    simp [flatMapL, ih]
    omega

lemma countEffect_execAll (drv : Driver) (l : List Str) (e : Effect)
    (he : ∀ s q, e ≠ Effect.execute s q) :
    countEffect e (execAll drv l).1 = 0 :=
  countEffect_eq_zero _ _ (fun x hx => by
    obtain ⟨b, rfl⟩ := execAll_only_executes drv l x hx
    exact fun hc => he b none hc.symm)

lemma countEffect_scriptBody (drv : Driver) (batches : List Str)
    (params : Option (List Value)) (e : Effect)
    (he : ∀ s q, e ≠ Effect.execute s q) :
    countEffect e (scriptBody drv batches params).2 = 0 :=
  countEffect_eq_zero _ _ (fun x hx => by
    obtain ⟨s, q, rfl⟩ := scriptBody_only_executes drv batches params x hx
    exact fun hc => he s q hc.symm)

lemma countEffect_map_execute (e : Effect) (l : List Str)
    (he : ∀ s q, e ≠ Effect.execute s q) :
    countEffect e (l.map (fun b => Effect.execute b none)) = 0 :=
  countEffect_eq_zero _ _ (fun x hx => by
    obtain ⟨b, _, rfl⟩ := List.mem_map.1 hx
    exact fun hc => he b none hc.symm)

lemma highlight_qty_cases (F O : Int) :
    (highlight_qty F O = Color.red ↔ (F = 0 ∨ O = 0)) ∧
    (highlight_qty F O = Color.green ↔ (F = O ∧ F ≠ 0)) ∧
    (highlight_qty F O = Color.yellow ↔ (F ≠ 0 ∧ O ≠ 0 ∧ F ≠ O)) := by
  unfold highlight_qty
  split_ifs with h1 h2 <;> refine ⟨?_, ?_, ?_⟩ <;> simp_all <;> omega

/-- C1: for a connected manager, when the batch split is non-empty, every
intermediate batch succeeds, and the final batch's resultsets contain one
with a column descriptor, RunScript executes each batch but the last with no
parameters, executes the last with the supplied parameters (under Python
truthiness), and returns the table built from the first descriptored
resultset of the final execution. -/
theorem C1_run_script_last_result (drv : Driver) (script : Str)
    (params : Option (List Value)) (last : Str) (sets : List ResultSet)
    (cols : List Str) (rows : List Row)
    (hmid : ∀ b ∈ (splitBatches script).dropLast,
      exceptOk (drv.exec b none) = true)
    (hlast : (splitBatches script).getLast? = some last)
    (hexec : drv.exec last (pyTruthyParams params) = Except.ok sets)
    (hfd : firstWithDesc sets = some (cols, rows)) :
    run_script_and_get_last_result true drv script params =
      (PyResult.ok ⟨cols, rows⟩,
       Effect.cursorOpen ::
         ((splitBatches script).dropLast.map (fun b => Effect.execute b none) ++
          [Effect.execute last (pyTruthyParams params), Effect.cursorClose])) := by
  have hall := execAll_ok drv (splitBatches script).dropLast hmid
  simp [run_script_and_get_last_result, scriptBody, hall, hlast, hexec, hfd]

/-- C1 witness: the three-batch example script returns the table with
column x and single row 3. -/
theorem C1_run_script_last_result_witness :
    run_script_and_get_last_result true exDriver exScript none =
      (PyResult.ok ⟨[lit "x"], [[Value.intV 3]]⟩,
       Effect.cursorOpen ::
         ((splitBatches exScript).dropLast.map (fun b => Effect.execute b none) ++
          [Effect.execute (lit "SELECT 3 AS x") (pyTruthyParams none),
           Effect.cursorClose])) :=
  C1_run_script_last_result exDriver exScript none (lit "SELECT 3 AS x")
    [⟨some [lit "x"], [[Value.intV 3]]⟩] [lit "x"] [[Value.intV 3]]
    (by decide) (by decide) rfl rfl

/-- C9: for a connected manager, a script whose batch split yields no
non-empty batch makes RunScript fail with IndexError — not a connection
error and not a table — with no statement executed. -/
theorem C9_empty_script_index_error (drv : Driver) (script : Str)
    (params : Option (List Value)) (h : splitBatches script = []) :
    run_script_and_get_last_result true drv script params =
      (PyResult.indexError, [Effect.cursorOpen, Effect.cursorClose]) := by
  simp [run_script_and_get_last_result, scriptBody, h, execAll]

/-- C9 witness: a whitespace-only script. -/
theorem C9_empty_script_index_error_witness :
    run_script_and_get_last_result true exDriver (lit "  \nGO\n ") none =
      (PyResult.indexError, [Effect.cursorOpen, Effect.cursorClose]) :=
  C9_empty_script_index_error exDriver (lit "  \nGO\n ") none (by decide)

/-- C2: for a connected manager, CallProcedureWithSelect never raises: a
driver error makes it log the failure and return the Python `None`
(`.ok none`); a successful batch none of whose resultsets is convertible
returns an empty table; and for every driver behavior its outcome is a
normal return. -/
theorem C2_call_sp_lenient (drv : Driver) (proc : Str) (ps : ProcParams)
    (tmp : Str) (e : Str)
    (herr : drv.exec (spSql proc ps tmp) (some (spVals ps)) = Except.error e) :
    call_stored_procedure_with_select true drv proc ps tmp =
      (PyResult.ok none,
       [Effect.cursorOpen,
        Effect.execute (spSql proc ps tmp) (some (spVals ps)),
        Effect.logError
          (lit "Error calling stored procedure with select: " ++ e)]) ∧
    (∀ drv2 : Driver, ∀ sets : List ResultSet,
       drv2.exec (spSql proc ps tmp) (some (spVals ps)) = Except.ok sets →
       firstWithDesc sets = none →
       (call_stored_procedure_with_select true drv2 proc ps tmp).1 =
         PyResult.ok (some ⟨[], []⟩)) ∧
    (∀ drv2 : Driver, ∃ a,
       (call_stored_procedure_with_select true drv2 proc ps tmp).1 =
         PyResult.ok a) := by
  refine ⟨?_, ?_, ?_⟩
  · simp [call_stored_procedure_with_select, herr]
  · intro drv2 sets hok hnone
    simp [call_stored_procedure_with_select, hok, hnone]
  · intro drv2
    cases he : drv2.exec (spSql proc ps tmp) (some (spVals ps)) with
    | error e2 =>
      exact ⟨none, by simp [call_stored_procedure_with_select, he]⟩
    | ok sets =>
      cases hf : firstWithDesc sets with
      | some cr =>
        exact ⟨some ⟨cr.1, cr.2⟩,
          by simp [call_stored_procedure_with_select, he, hf]⟩
      | none =>
        exact ⟨some ⟨[], []⟩,
          by simp [call_stored_procedure_with_select, he, hf]⟩

/-- C2 witness: against the always-raising driver the call returns the null
result and logs. -/
theorem C2_call_sp_lenient_witness :
    call_stored_procedure_with_select true failDriver (lit "sp")
        ProcParams.noneP (lit "#tmp") =
      (PyResult.ok none,
       [Effect.cursorOpen,
        Effect.execute (spSql (lit "sp") ProcParams.noneP (lit "#tmp"))
          (some []),
        Effect.logError
          (lit "Error calling stored procedure with select: " ++
            lit "boom")]) :=
  (C2_call_sp_lenient failDriver (lit "sp") ProcParams.noneP (lit "#tmp")
    (lit "boom") rfl).1

/-- C8: with no connection held, CallProcedureWithSelect raises the
connection error before touching the driver, and in particular does not
return the null result. -/
theorem C8_not_connected_raises (drv : Driver) (proc : Str)
    (ps : ProcParams) (tmp : Str) :
    call_stored_procedure_with_select false drv proc ps tmp =
      (PyResult.dbConnError (lit "Database connection not established"),
       []) ∧
    (call_stored_procedure_with_select false drv proc ps tmp).1 ≠
      PyResult.ok none := by
  constructor
  · rfl
  · simp [call_stored_procedure_with_select]

/-- C7: after absent quantities are filled with zero, the classification is
red exactly when either filled quantity is zero (covering both-zero and
either-side-absent), green exactly when the quantities are equal and
non-zero, yellow otherwise; with the four concrete examples of the spec. -/
theorem C7_highlight_classification (f o : Option Int) :
    (highlight_qty (fillna0 f) (fillna0 o) = Color.red ↔
       (fillna0 f = 0 ∨ fillna0 o = 0)) ∧
    (highlight_qty (fillna0 f) (fillna0 o) = Color.green ↔
       (fillna0 f = fillna0 o ∧ fillna0 f ≠ 0)) ∧
    (highlight_qty (fillna0 f) (fillna0 o) = Color.yellow ↔
       (fillna0 f ≠ 0 ∧ fillna0 o ≠ 0 ∧ fillna0 f ≠ fillna0 o)) ∧
    (∀ b : Int, highlight_qty (fillna0 none) b = Color.red) ∧
    (∀ a : Int, highlight_qty a (fillna0 none) = Color.red) ∧
    highlight_qty 5 5 = Color.green ∧
    highlight_qty 5 0 = Color.red ∧
    highlight_qty 5 3 = Color.yellow ∧
    highlight_qty (fillna0 none) 5 = Color.red := by
  refine ⟨(highlight_qty_cases _ _).1, (highlight_qty_cases _ _).2.1,
    (highlight_qty_cases _ _).2.2, ?_, ?_, by decide, by decide, by decide,
    by decide⟩
  · intro b; simp [highlight_qty, fillna0]
  · intro a; simp [highlight_qty, fillna0]

/-- C4: on a local run, the token is attached as driver attribute 1256,
encoded as each UTF-8 byte of the token followed by a zero byte, the whole
prefixed by the interleaved sequence's length (twice the token's byte
count) as a 4-byte little-endian integer. -/
theorem C4_local_token_attr (token : Str) :
    setup_connection_attrs (lit "LOCAL") token =
      some (1256,
        packI32LE (2 * (utf8Bytes token).length) ++
          flatMapL (fun b => [b, 0]) (utf8Bytes token)) := by
  simp [setup_connection_attrs, tokenstruct, exptoken_eq_flat,
    flat_pair_length]

/-- C3 counterexample: a connected CallProcedureWithSelect run opens a
cursor and never releases it, so the claim that every operation releases
every cursor it obtains is false. -/
theorem C3_counterexample_cursor_leak :
    Effect.cursorOpen ∈
      (call_stored_procedure_with_select true exDriver (lit "sp")
        ProcParams.noneP (lit "#t")).2 ∧
    Effect.cursorClose ∉
      (call_stored_procedure_with_select true exDriver (lit "sp")
        ProcParams.noneP (lit "#t")).2 := by decide

/-- C3 amended: ExecuteQuery and RunScript release exactly the cursors they
open, on success and failure alike; ReadQuery opens none; but a connected
CallProcedureWithSelect or RunMultiStatementScript opens one cursor and
never releases it. -/
theorem C3_amended_cursor_discipline (drv : Driver) (c : Bool)
    (q scr ms proc tmp : Str) (ps pq : Option (List Value))
    (pp : ProcParams) :
    countEffect Effect.cursorOpen (execute_query c drv q ps).2 =
      countEffect Effect.cursorClose (execute_query c drv q ps).2 ∧
    countEffect Effect.cursorOpen
        (run_script_and_get_last_result c drv scr pq).2 =
      countEffect Effect.cursorClose
        (run_script_and_get_last_result c drv scr pq).2 ∧
    countEffect Effect.cursorOpen (read_sql c drv q).2 = 0 ∧
    countEffect Effect.cursorOpen
        (call_stored_procedure_with_select true drv proc pp tmp).2 = 1 ∧
    countEffect Effect.cursorClose
        (call_stored_procedure_with_select true drv proc pp tmp).2 = 0 ∧
    countEffect Effect.cursorOpen (run_multistatement_script true drv ms).2
        = 1 ∧
    countEffect Effect.cursorClose (run_multistatement_script true drv ms).2
        = 0 := by
  have hopen : ∀ (s : Str) (qq : Option (List Value)),
      Effect.cursorOpen ≠ Effect.execute s qq := by intro s qq h; cases h
  have hclose : ∀ (s : Str) (qq : Option (List Value)),
      Effect.cursorClose ≠ Effect.execute s qq := by intro s qq h; cases h
  refine ⟨?_, ?_, ?_, ?_, ?_, ?_, ?_⟩
  · cases c with
    | false => simp [execute_query, countEffect]
    | true =>
      cases he : drv.exec q (some (ps.getD [])) <;>
        simp [execute_query, he, countEffect]
  · cases c with
    | false => simp [run_script_and_get_last_result, countEffect]
    | true =>
      simp [run_script_and_get_last_result, countEffect, countEffect_append,
        countEffect_scriptBody drv (splitBatches scr) pq _ hopen,
        countEffect_scriptBody drv (splitBatches scr) pq _ hclose]
  · cases c with
    | false => simp [read_sql, countEffect]
    | true => cases hr : drv.readSql q <;> simp [read_sql, hr, countEffect]
  · cases he : drv.exec (spSql proc pp tmp) (some (spVals pp)) with
    | error e => simp [call_stored_procedure_with_select, he, countEffect]
    | ok sets =>
      cases hf : firstWithDesc sets <;>
        simp [call_stored_procedure_with_select, he, hf, countEffect]
  · cases he : drv.exec (spSql proc pp tmp) (some (spVals pp)) with
    | error e => simp [call_stored_procedure_with_select, he, countEffect]
    | ok sets =>
      cases hf : firstWithDesc sets <;>
        simp [call_stored_procedure_with_select, he, hf, countEffect]
  · cases h2 : (execAll drv (multiStmts ms)).2 <;>
      simp [run_multistatement_script, h2, countEffect, countEffect_append,
        countEffect_execAll drv (multiStmts ms) _ hopen]
  · cases h2 : (execAll drv (multiStmts ms)).2 <;>
      simp [run_multistatement_script, h2, countEffect, countEffect_append,
        countEffect_execAll drv (multiStmts ms) _ hclose]

/-- C5 counterexample: a one-element tuple argument binds no parameters and
renders no placeholder — its element is not passed positionally. -/
theorem C5_counterexample_tuple_not_bound :
    (call_stored_procedure_with_select true exDriver (lit "sp")
        (ProcParams.tupleP [Value.intV 7]) (lit "#t")).2 =
      [Effect.cursorOpen,
       Effect.execute
         (spSql (lit "sp") (ProcParams.tupleP [Value.intV 7]) (lit "#t"))
         (some [])] ∧
    spVals (ProcParams.tupleP [Value.intV 7]) = [] ∧
    (buildPlaceholders (ProcParams.tupleP [Value.intV 7])).1 = [] := by
  decide

/-- C5 amended: a mapping is rendered as named `@key = ?` placeholders with
the mapping's values bound; a list as positional `?` placeholders with its
elements bound; any other value — a tuple included — binds nothing; and the
operation always performs the execute with exactly those bound values. -/
theorem C5_amended_param_binding (drv : Driver) (proc tmp : Str)
    (kvs : List (Str × Value)) (vs ws : List Value) :
    Effect.execute (spSql proc (ProcParams.dict kvs) tmp)
        (some (kvs.map (fun kv => kv.2))) ∈
      (call_stored_procedure_with_select true drv proc
        (ProcParams.dict kvs) tmp).2 ∧
    (buildPlaceholders (ProcParams.dict kvs)).1 =
      intercalateL (lit ", ")
        (kvs.map (fun kv => lit "@" ++ kv.1 ++ lit " = ?")) ∧
    Effect.execute (spSql proc (ProcParams.listP vs) tmp) (some vs) ∈
      (call_stored_procedure_with_select true drv proc
        (ProcParams.listP vs) tmp).2 ∧
    (buildPlaceholders (ProcParams.listP vs)).1 =
      intercalateL (lit ", ") (vs.map (fun _ => lit "?")) ∧
    Effect.execute (spSql proc (ProcParams.tupleP ws) tmp) (some []) ∈
      (call_stored_procedure_with_select true drv proc
        (ProcParams.tupleP ws) tmp).2 ∧
    Effect.execute (spSql proc ProcParams.noneP tmp) (some []) ∈
      (call_stored_procedure_with_select true drv proc
        ProcParams.noneP tmp).2 := by
  refine ⟨?_, rfl, ?_, rfl, ?_, ?_⟩
  · exact call_sp_executes drv proc (ProcParams.dict kvs) tmp
  · exact call_sp_executes drv proc (ProcParams.listP vs) tmp
  · exact call_sp_executes drv proc (ProcParams.tupleP ws) tmp
  · exact call_sp_executes drv proc ProcParams.noneP tmp

/-- C6 counterexample: a driver failure surfaces from RunScript and from
RunMultiStatementScript as the raw lower-layer exception, not wrapped in a
connection error. -/
theorem C6_counterexample_unwrapped :
    (run_script_and_get_last_result true failDriver (lit "SELECT 1")
        none).1 = PyResult.driverError (lit "boom") ∧
    (run_multistatement_script true failDriver (lit "SELECT 1")).1 =
      PyResult.driverError (lit "boom") := by decide

/-- C6 amended: ReadQuery and ExecuteQuery wrap every driver error in a
ConnectionError with context; RunScript and RunMultiStatementScript let the
driver error escape unwrapped. -/
theorem C6_amended_error_wrapping (drv : Driver) (q scr ms : Str)
    (ps : Option (List Value)) (e : Str)
    (hr : drv.readSql q = Except.error e)
    (hx : drv.exec q (some (ps.getD [])) = Except.error e)
    (hxn : drv.exec q none = Except.error e)
    (hs : splitBatches scr = [q])
    (hm : multiStmts ms = [q]) :
    (read_sql true drv q).1 =
      PyResult.dbConnError (lit "Error executing query: " ++ e) ∧
    (execute_query true drv q ps).1 =
      PyResult.dbConnError (lit "Error executing query: " ++ e) ∧
    (run_script_and_get_last_result true drv scr none).1 =
      PyResult.driverError e ∧
    (run_multistatement_script true drv ms).1 = PyResult.driverError e := by
  refine ⟨?_, ?_, ?_, ?_⟩
  · simp [read_sql, hr]
  · simp [execute_query, hx]
  · simp [run_script_and_get_last_result, scriptBody, hs, hxn, execAll,
      pyTruthyParams]
  · simp [run_multistatement_script, hm, execAll, hxn]

/-- C6 amended witness: the failing driver on a one-statement script. -/
theorem C6_amended_error_wrapping_witness :
    (read_sql true failDriver (lit "SELECT 1")).1 =
      PyResult.dbConnError
        (lit "Error executing query: " ++ lit "boom") ∧
    (execute_query true failDriver (lit "SELECT 1") none).1 =
      PyResult.dbConnError
        (lit "Error executing query: " ++ lit "boom") ∧
    (run_script_and_get_last_result true failDriver (lit "SELECT 1")
        none).1 = PyResult.driverError (lit "boom") ∧
    (run_multistatement_script true failDriver (lit "SELECT 1")).1 =
      PyResult.driverError (lit "boom") :=
  C6_amended_error_wrapping failDriver (lit "SELECT 1") (lit "SELECT 1")
    (lit "SELECT 1") none (lit "boom") rfl rfl rfl (by decide) (by decide)

/-- C10: only RunMultiStatementScript commits — once, as the last effect,
after all non-empty statements executed — and the four other operations
never commit, for any connection state and driver behavior. -/
theorem C10_commit_discipline (drv : Driver) (c : Bool)
    (q scr ms proc tmp : Str) (ps pq : Option (List Value))
    (pp : ProcParams) (script : Str)
    (hok : (execAll drv (multiStmts script)).2 = none) :
    countEffect Effect.commit (read_sql c drv q).2 = 0 ∧
    countEffect Effect.commit (execute_query c drv q ps).2 = 0 ∧
    countEffect Effect.commit
      (call_stored_procedure_with_select c drv proc pp tmp).2 = 0 ∧
    countEffect Effect.commit
      (run_script_and_get_last_result c drv scr pq).2 = 0 ∧
    run_multistatement_script true drv script =
      (PyResult.ok (),
       Effect.cursorOpen ::
         (multiStmts script).map (fun s => Effect.execute s none) ++
         [Effect.commit]) ∧
    countEffect Effect.commit
      (run_multistatement_script true drv script).2 = 1 ∧
    countEffect Effect.commit (run_multistatement_script c drv ms).2 ≤ 1 := by
  have hcommit : ∀ (s : Str) (qq : Option (List Value)),
      Effect.commit ≠ Effect.execute s qq := by intro s qq h; cases h
  refine ⟨?_, ?_, ?_, ?_, ?_, ?_, ?_⟩
  · cases c with
    | false => simp [read_sql, countEffect]
    | true => cases hr : drv.readSql q <;> simp [read_sql, hr, countEffect]
  · cases c with
    | false => simp [execute_query, countEffect]
    | true =>
      cases he : drv.exec q (some (ps.getD [])) <;>
        simp [execute_query, he, countEffect]
  · cases c with
    | false => simp [call_stored_procedure_with_select, countEffect]
    | true =>
      cases he : drv.exec (spSql proc pp tmp) (some (spVals pp)) with
      | error e => simp [call_stored_procedure_with_select, he, countEffect]
      | ok sets =>
        cases hf : firstWithDesc sets <;>
          simp [call_stored_procedure_with_select, he, hf, countEffect]
  · cases c with
    | false => simp [run_script_and_get_last_result, countEffect]
    | true =>
      simp [run_script_and_get_last_result, countEffect, countEffect_append,
        countEffect_scriptBody drv (splitBatches scr) pq _ hcommit]
  · simp [run_multistatement_script, hok, execAll_fst_of_none drv _ hok]
  · simp [run_multistatement_script, hok, execAll_fst_of_none drv _ hok,
      countEffect, countEffect_append,
      countEffect_map_execute _ (multiStmts script) hcommit]
  · cases c with
    | false => simp [run_multistatement_script, countEffect]
    | true =>
      cases h2 : (execAll drv (multiStmts ms)).2 <;>
        simp [run_multistatement_script, h2, countEffect, countEffect_append,
          countEffect_execAll drv (multiStmts ms) _ hcommit]

/-- C10 witness: a one-statement script against the well-behaved driver
commits exactly once, after the statement. -/
theorem C10_commit_discipline_witness :
    run_multistatement_script true exDriver (lit "SELECT 1") =
      (PyResult.ok (),
       Effect.cursorOpen ::
         (multiStmts (lit "SELECT 1")).map (fun s => Effect.execute s none) ++
         [Effect.commit]) ∧
    countEffect Effect.commit
      (run_multistatement_script true exDriver (lit "SELECT 1")).2 = 1 :=
  ⟨(C10_commit_discipline exDriver true (lit "q") (lit "s") (lit "m")
      (lit "p") (lit "t") none none ProcParams.noneP (lit "SELECT 1")
      (by decide)).2.2.2.2.1,
   (C10_commit_discipline exDriver true (lit "q") (lit "s") (lit "m")
      (lit "p") (lit "t") none none ProcParams.noneP (lit "SELECT 1")
      (by decide)).2.2.2.2.2.1⟩
